import Mathlib

/-!
Shallow embedding of `src/nba_clutch_predictor.py`.

The file models the two functions the claims are about:

* `calcular_clutch_score` (lines 9-20): z-score standardization of six stat
  columns (`StandardScaler`, population standard deviation, constant columns
  rescaled by 1), weighted sum, pandas `rank(ascending=False)` (method
  `average`), and a descending sort on the score.
* `obtener_datos_jugadores` (lines 44-59): column selection, `dropna`,
  team filter, and the `except`-branch returning an empty frame.

Floating-point values are idealized as real numbers.  Missing values (pandas
`NaN`) are modelled with `Option`: `none` is a missing cell.  The `ValueError`
raised by `StandardScaler.fit_transform` when the input has zero samples is
the single constructor of `ScoreError`.  Missing values do not make the code
fail: `StandardScaler` validates with `force_all_finite='allow-nan'`
(scikit-learn ≥ 0.20), disregarding NaN when fitting and carrying it through
the transform, so an incomplete row comes back with NaN score and rank while
the complete rows are scored.  NaN propagation is floating-point behavior
with no counterpart in `ℝ`, so the embedding is faithful on the spec's input
contract (complete records); of the NaN region it asserts only the
float-independent fact that the call succeeds, and the numeric contents it
returns there (missing cells read as `0`) are a modelling artifact outside
every claim's complete-records regime.
-/

/-- One row of the dataframe handed to `calcular_clutch_score`: the player and
team identifiers plus the six stat columns.  A stat cell is `Option ℝ`,
`none` modelling a pandas `NaN`. -/
structure PlayerRow where
  PLAYER_NAME : String
  TEAM_ABBREVIATION : String
  PTS : Option ℝ
  FG_PCT : Option ℝ
  FT_PCT : Option ℝ
  AST : Option ℝ
  FG3_PCT : Option ℝ
  TOV : Option ℝ

/-- One row of the dataframe returned by `calcular_clutch_score` (line 17-20):
name and team copied from the input, plus the computed score and rank. -/
structure ClutchRow where
  PLAYER_NAME : String
  TEAM_ABBREVIATION : String
  CLUTCH_SCORE : ℝ
  CLUTCH_RANK : ℝ

/-- The only failure `scaler.fit_transform` raises inside
`calcular_clutch_score`: a zero-sample input. -/
inductive ScoreError where
  | emptyInput
  deriving Repr, DecidableEq

/-- A row has a missing value in one of the six stat columns selected by
`df[list(weights.keys())]`. -/
def hasMissing (r : PlayerRow) : Bool :=
  !(r.PTS.isSome && r.FG_PCT.isSome && r.FT_PCT.isSome &&
    r.AST.isSome && r.FG3_PCT.isSome && r.TOV.isSome)

/-- Numeric value of a stat cell.  Meaningful when the cell is present; the
`0` read on a missing cell is a modelling artifact (a real `NaN` has no `ℝ`
counterpart) and lies outside the complete-records regime every claim about
scores is stated in. -/
def cell (x : Option ℝ) : ℝ := x.getD 0

/-- The `PTS` column of the selected stat block. -/
def colPTS (rows : List PlayerRow) : List ℝ := rows.map (fun r => cell r.PTS)

/-- The `FG_PCT` column of the selected stat block. -/
def colFG_PCT (rows : List PlayerRow) : List ℝ := rows.map (fun r => cell r.FG_PCT)

/-- The `FT_PCT` column of the selected stat block. -/
def colFT_PCT (rows : List PlayerRow) : List ℝ := rows.map (fun r => cell r.FT_PCT)

/-- The `AST` column of the selected stat block. -/
def colAST (rows : List PlayerRow) : List ℝ := rows.map (fun r => cell r.AST)

/-- The `FG3_PCT` column of the selected stat block. -/
def colFG3_PCT (rows : List PlayerRow) : List ℝ := rows.map (fun r => cell r.FG3_PCT)

/-- The `TOV` column of the selected stat block. -/
def colTOV (rows : List PlayerRow) : List ℝ := rows.map (fun r => cell r.TOV)

/-- Column mean, as computed by `StandardScaler.fit` (`mean_`). -/
noncomputable def mean (xs : List ℝ) : ℝ := xs.sum / xs.length

/-- Column population variance (`var_` of `StandardScaler`, which divides by
`N`). -/
noncomputable def popVar (xs : List ℝ) : ℝ :=
  ((xs.map (fun x => (x - mean xs) ^ 2)).sum) / xs.length

/-- The divisor `scale_` of `StandardScaler`: the population standard
deviation `sqrt (var_)`, except that `_handle_zeros_in_scale` replaces an
exactly-zero scale of a constant column by `1`. -/
noncomputable def scale (xs : List ℝ) : ℝ :=
  if popVar xs = 0 then 1 else Real.sqrt (popVar xs)

/-- The standardized value produced by `scaler.fit_transform` for cell `x` of
a column with entries `xs`. -/
noncomputable def zscore (xs : List ℝ) (x : ℝ) : ℝ := (x - mean xs) / scale xs

/-- The clutch score of row `r` (line 16): the dot product of the scaled
stats with the weights `PTS 0.35, FG_PCT 0.25, FT_PCT 0.15, AST 0.15,
FG3_PCT 0.10, TOV -0.25` of line 10-13. -/
noncomputable def clutchScore (rows : List PlayerRow) (r : PlayerRow) : ℝ :=
  0.35 * zscore (colPTS rows) (cell r.PTS)
    + 0.25 * zscore (colFG_PCT rows) (cell r.FG_PCT)
    + 0.15 * zscore (colFT_PCT rows) (cell r.FT_PCT)
    + 0.15 * zscore (colAST rows) (cell r.AST)
    + 0.10 * zscore (colFG3_PCT rows) (cell r.FG3_PCT)
    + (-0.25) * zscore (colTOV rows) (cell r.TOV)

/-- Pandas `Series.rank(ascending=False)` with the default method
`average`: the rank of value `x` within `scores` is the average of the
ordinal positions of the entries equal to `x` after sorting descending,
i.e. (number strictly greater) + ((number equal) + 1) / 2. -/
noncomputable def rankDesc (scores : List ℝ) (x : ℝ) : ℝ :=
  (scores.countP (fun y => decide (x < y)) : ℝ) +
    ((scores.countP (fun y => decide (y = x)) : ℝ) + 1) / 2

/-- Ordering used by `sort_values('CLUTCH_SCORE', ascending=False)`. -/
def scoreGE (a b : ClutchRow) : Prop := b.CLUTCH_SCORE ≤ a.CLUTCH_SCORE

noncomputable instance : DecidableRel scoreGE :=
  fun a b => Real.decidableLE b.CLUTCH_SCORE a.CLUTCH_SCORE

instance : IsTotal ClutchRow scoreGE :=
  ⟨fun a b => (le_total b.CLUTCH_SCORE a.CLUTCH_SCORE).imp id id⟩

instance : IsTrans ClutchRow scoreGE :=
  ⟨fun _ _ _ h1 h2 => le_trans h2 h1⟩

/-- Lines 17-19: copy name and team, attach the score column and the rank
column (the rank of a row is the rank of its score within the whole score
series, computed before sorting). -/
noncomputable def withScores (rows : List PlayerRow) : List ClutchRow :=
  rows.map (fun r =>
    { PLAYER_NAME := r.PLAYER_NAME
      TEAM_ABBREVIATION := r.TEAM_ABBREVIATION
      CLUTCH_SCORE := clutchScore rows r
      CLUTCH_RANK := rankDesc (rows.map (clutchScore rows)) (clutchScore rows r) })

/-- Line 20: sort the result descending by `CLUTCH_SCORE`.  Pandas'
`sort_values` does not fix the relative order of tied rows; the embedding
realizes one admissible order. -/
noncomputable def scoreRows (rows : List PlayerRow) : List ClutchRow :=
  (withScores rows).insertionSort scoreGE

/-- The function `calcular_clutch_score` (lines 9-20).  `fit_transform`
raises only on a zero-sample input (modelled by `ScoreError.emptyInput`);
otherwise the scored, ranked and sorted frame of line 20 is returned.  A
missing stat value does not make the call fail (`StandardScaler` allows
NaN); on such an input the real code carries the NaN row through with NaN
score and rank, behavior that has no `ℝ` counterpart, so here only the
success of the call is faithful and the numeric contents are a modelling
artifact. -/
noncomputable def calcular_clutch_score (df : List PlayerRow) :
    Except ScoreError (List ClutchRow) :=
  if df.isEmpty then .error .emptyInput
  else .ok (scoreRows df)

/-- Dataframe-level view of one call to `calcular_clutch_score`: the pair of
the caller's dataframe after the call and the call's result.  Line 17 copies
the selected columns (`df[['PLAYER_NAME', 'TEAM_ABBREVIATION']].copy()`), so
the column writes of lines 18-19 touch only the copy and the caller's frame
comes back unchanged. -/
noncomputable def calcular_clutch_score_run (df : List PlayerRow) :
    List PlayerRow × Except ScoreError (List ClutchRow) :=
  (df, calcular_clutch_score df)

/-- Two consecutive calls on the same dataframe, threading the frame state
through both: the final frame state and the two results. -/
noncomputable def calcular_clutch_score_twice (df : List PlayerRow) :
    List PlayerRow × Except ScoreError (List ClutchRow) ×
      Except ScoreError (List ClutchRow) :=
  ((calcular_clutch_score_run (calcular_clutch_score_run df).1).1,
   (calcular_clutch_score_run df).2,
   (calcular_clutch_score_run (calcular_clutch_score_run df).1).2)

/-- Modelled from the spec sentence `Standardize each value:
z = (value - mean) / std`, with `std` the population standard deviation
(the code's `StandardScaler` choice, which the spec admits).  Real division
by zero is zero in Lean, so a constant column yields `z = 0` here too. -/
noncomputable def z_spec (xs : List ℝ) (x : ℝ) : ℝ :=
  (x - mean xs) / Real.sqrt (popVar xs)

/-- Modelled from the spec sentence `score = 0.35*z_pts + 0.25*z_fg_pct +
0.15*z_ft_pct + 0.15*z_ast + 0.10*z_fg3_pct - 0.25*z_tov`. -/
noncomputable def score_spec (rows : List PlayerRow) (r : PlayerRow) : ℝ :=
  0.35 * z_spec (colPTS rows) (cell r.PTS)
    + 0.25 * z_spec (colFG_PCT rows) (cell r.FG_PCT)
    + 0.15 * z_spec (colFT_PCT rows) (cell r.FT_PCT)
    + 0.15 * z_spec (colAST rows) (cell r.AST)
    + 0.10 * z_spec (colFG3_PCT rows) (cell r.FG3_PCT)
    - 0.25 * z_spec (colTOV rows) (cell r.TOV)

/-- One row of the frame returned by `LeagueDashPlayerStats`, restricted to
the eight columns selected on lines 52-53.  Any cell can be `NaN`
(modelled `none`). -/
structure StatsRow where
  PLAYER_NAME : Option String
  TEAM_ABBREVIATION : Option String
  FG_PCT : Option ℝ
  FG3_PCT : Option ℝ
  FT_PCT : Option ℝ
  AST : Option ℝ
  TOV : Option ℝ
  PTS : Option ℝ

/-- A `StatsRow` survives `dropna()`: none of the eight selected cells is
missing. -/
def statsComplete (r : StatsRow) : Bool :=
  r.PLAYER_NAME.isSome && r.TEAM_ABBREVIATION.isSome &&
    r.FG_PCT.isSome && r.FG3_PCT.isSome && r.FT_PCT.isSome &&
    r.AST.isSome && r.TOV.isSome && r.PTS.isSome

/-- The team filter `TEAM_ABBREVIATION.isin(abreviaturas)` of line 56; a
missing team abbreviation is in no set, as in pandas. -/
def teamIn (r : StatsRow) (abreviaturas : List String) : Bool :=
  match r.TEAM_ABBREVIATION with
  | some t => abreviaturas.contains t
  | none => false

/-- The function `obtener_datos_jugadores` (lines 44-59).  The upstream fetch
either fails (the `except` branch shows an error message and returns an empty
frame) or yields the stats table, from which the eight relevant columns are
taken, rows with missing values dropped, and the remaining rows filtered to
the requested team abbreviations. -/
def obtener_datos_jugadores (fetched : Except String (List StatsRow))
    (abreviaturas : List String) : List StatsRow :=
  match fetched with
  | .error _ => []
  | .ok stats =>
      (stats.filter statsComplete).filter (fun r => teamIn r abreviaturas)

/-- Concrete complete player row (player A of the spec's concrete
scenario). -/
def rowA : PlayerRow :=
  { PLAYER_NAME := "A", TEAM_ABBREVIATION := "AAA"
    PTS := some 30, FG_PCT := some 0.50, FT_PCT := some 0.80
    AST := some 5, FG3_PCT := some 0.35, TOV := some 3 }

/-- Concrete complete player row (player B of the spec's concrete
scenario). -/
def rowB : PlayerRow :=
  { PLAYER_NAME := "B", TEAM_ABBREVIATION := "BBB"
    PTS := some 20, FG_PCT := some 0.45, FT_PCT := some 0.90
    AST := some 8, FG3_PCT := some 0.40, TOV := some 1 }

/-- Concrete row with a missing `PTS` cell. -/
def rowMissing : PlayerRow :=
  { PLAYER_NAME := "M", TEAM_ABBREVIATION := "MMM"
    PTS := none, FG_PCT := some 0.45, FT_PCT := some 0.90
    AST := some 8, FG3_PCT := some 0.40, TOV := some 1 }

/-- The `StatsRow` → `PlayerRow` reading of a fetched row, as consumed by
`calcular_clutch_score(jugadores)` on line 87. -/
def toPlayerRow (r : StatsRow) : PlayerRow :=
  { PLAYER_NAME := r.PLAYER_NAME.getD ""
    TEAM_ABBREVIATION := r.TEAM_ABBREVIATION.getD ""
    PTS := r.PTS, FG_PCT := r.FG_PCT, FT_PCT := r.FT_PCT
    AST := r.AST, FG3_PCT := r.FG3_PCT, TOV := r.TOV }

/-- Concrete complete fetched stats row. -/
def sRowA : StatsRow :=
  { PLAYER_NAME := some "A", TEAM_ABBREVIATION := some "LAL"
    FG_PCT := some 0.50, FG3_PCT := some 0.35, FT_PCT := some 0.80
    AST := some 5, TOV := some 3, PTS := some 30 }

/-! ### Helper lemmas -/

lemma list_sum_zero_mem {l : List ℝ} (hn : ∀ x ∈ l, 0 ≤ x) (hs : l.sum = 0) :
    ∀ x ∈ l, x = 0 := by
  induction l with
  | nil => intro x hx; cases hx
  | cons a t ih =>
    have ha : 0 ≤ a := hn a (List.mem_cons_self a t)
    have ht : 0 ≤ t.sum :=
      List.sum_nonneg fun x hx => hn x (List.mem_cons_of_mem a hx)
    have hsum : a + t.sum = 0 := by simpa using hs
    have ha0 : a = 0 := le_antisymm (by linarith) ha
    have hts : t.sum = 0 := by linarith
    intro x hx
    rcases List.mem_cons.mp hx with rfl | h
    · exact ha0
    · exact ih (fun y hy => hn y (List.mem_cons_of_mem a hy)) hts x h

lemma length_cast_pos {α : Type} {l : List α} (h : l ≠ []) :
    (0 : ℝ) < l.length := by
  have := List.length_pos.mpr h
  exact_mod_cast this

lemma popVar_nonneg (xs : List ℝ) : 0 ≤ popVar xs := by
  unfold popVar
  apply div_nonneg
  · apply List.sum_nonneg
    intro y hy
    obtain ⟨x, _, rfl⟩ := List.mem_map.mp hy
    positivity
  · exact Nat.cast_nonneg _

lemma eq_mean_of_popVar_eq_zero {xs : List ℝ} {x : ℝ} (hx : x ∈ xs)
    (h : popVar xs = 0) : x = mean xs := by
  have hne : xs ≠ [] := List.ne_nil_of_mem hx
  have hlen : (0 : ℝ) < xs.length := length_cast_pos hne
  unfold popVar at h
  rcases div_eq_zero_iff.mp h with hs | hl
  · have hz := list_sum_zero_mem
      (l := xs.map fun y => (y - mean xs) ^ 2)
      (by intro y hy
          obtain ⟨z, _, rfl⟩ := List.mem_map.mp hy
          positivity) hs
    have h2 := hz ((x - mean xs) ^ 2)
      (List.mem_map_of_mem (fun y => (y - mean xs) ^ 2) hx)
    have h3 : x - mean xs = 0 := by
      have := pow_eq_zero_iff (n := 2) (by norm_num) |>.mp h2
      exact this
    linarith
  · exact absurd hl (ne_of_gt hlen)

lemma scale_ne_zero (xs : List ℝ) : scale xs ≠ 0 := by
  unfold scale
  by_cases h : popVar xs = 0
  · rw [if_pos h]; exact one_ne_zero
  · rw [if_neg h]
    exact Real.sqrt_ne_zero'.mpr (lt_of_le_of_ne (popVar_nonneg xs) (Ne.symm h))

lemma zscore_zero_of_popVar_zero {xs : List ℝ} {x : ℝ} (hx : x ∈ xs)
    (h : popVar xs = 0) : zscore xs x = 0 := by
  unfold zscore
  rw [eq_mean_of_popVar_eq_zero hx h]
  simp

lemma zscore_eq_z_spec {xs : List ℝ} {x : ℝ} (hx : x ∈ xs) :
    zscore xs x = z_spec xs x := by
  by_cases h : popVar xs = 0
  · rw [zscore_zero_of_popVar_zero hx h]
    unfold z_spec
    rw [eq_mean_of_popVar_eq_zero hx h]
    simp
  · unfold zscore z_spec scale
    rw [if_neg h]

lemma withScores_scores (rows : List PlayerRow) :
    (withScores rows).map (fun o => o.CLUTCH_SCORE) =
      rows.map (clutchScore rows) := by
  unfold withScores
  rw [List.map_map]
  rfl

lemma scoreRows_perm (rows : List PlayerRow) :
    (scoreRows rows).Perm (withScores rows) :=
  List.perm_insertionSort scoreGE (withScores rows)

lemma length_scoreRows (rows : List PlayerRow) :
    (scoreRows rows).length = rows.length := by
  rw [(scoreRows_perm rows).length_eq]
  unfold withScores
  rw [List.length_map]

lemma mem_scoreRows {rows : List PlayerRow} {o : ClutchRow}
    (ho : o ∈ scoreRows rows) :
    ∃ r ∈ rows, o =
      { PLAYER_NAME := r.PLAYER_NAME
        TEAM_ABBREVIATION := r.TEAM_ABBREVIATION
        CLUTCH_SCORE := clutchScore rows r
        CLUTCH_RANK :=
          rankDesc (rows.map (clutchScore rows)) (clutchScore rows r) } := by
  have h2 : o ∈ withScores rows := (scoreRows_perm rows).subset ho
  unfold withScores at h2
  obtain ⟨r, hr, h⟩ := List.mem_map.mp h2
  exact ⟨r, hr, h.symm⟩

lemma rank_eq_rankDesc {rows : List PlayerRow} {o : ClutchRow}
    (ho : o ∈ scoreRows rows) :
    o.CLUTCH_RANK = rankDesc (rows.map (clutchScore rows)) o.CLUTCH_SCORE ∧
      o.CLUTCH_SCORE ∈ rows.map (clutchScore rows) := by
  obtain ⟨r, hr, rfl⟩ := mem_scoreRows ho
  exact ⟨rfl, List.mem_map_of_mem (clutchScore rows) hr⟩

lemma scoreRows_scores_perm (rows : List PlayerRow) :
    ((scoreRows rows).map fun o => o.CLUTCH_SCORE).Perm
      (rows.map (clutchScore rows)) := by
  have h := (scoreRows_perm rows).map fun o => o.CLUTCH_SCORE
  rwa [withScores_scores] at h

lemma countP_scoreRows (rows : List PlayerRow) (p : ℝ → Bool) :
    ((scoreRows rows).countP fun o => p o.CLUTCH_SCORE) =
      (rows.map (clutchScore rows)).countP p := by
  rw [← (scoreRows_scores_perm rows).countP_eq p]
  rw [List.countP_map]
  rfl

lemma scoreRows_sorted (rows : List PlayerRow) :
    (scoreRows rows).Sorted scoreGE :=
  List.sorted_insertionSort scoreGE (withScores rows)

lemma countP_gt_add_eq_le (scores : List ℝ) {x y : ℝ} (hyx : y < x) :
    (scores.countP fun s => decide (x < s)) +
        (scores.countP fun s => decide (s = x)) ≤
      scores.countP fun s => decide (y < s) := by
  induction scores with
  | nil => simp
  | cons a t ih =>
    simp only [List.countP_cons]
    by_cases h1 : x < a
    · have h3 : y < a := hyx.trans h1
      have h2 : ¬(a = x) := fun h => absurd (h ▸ h1) (lt_irrefl x)
      simp [h1, h2, h3]
      omega
    · by_cases h2 : a = x
      · subst h2
        have h3 : y < a := hyx
        simp [h1, h3]
        omega
      · by_cases h3 : y < a
        · simp [h1, h2, h3]
          omega
        · simp [h1, h2, h3]
          omega

lemma rankDesc_anti {scores : List ℝ} {x y : ℝ} (h : y ≤ x) :
    rankDesc scores x ≤ rankDesc scores y := by
  rcases eq_or_lt_of_le h with rfl | hlt
  · exact le_refl _
  · unfold rankDesc
    have key : ((scores.countP fun s => decide (x < s)) : ℝ) +
        ((scores.countP fun s => decide (s = x)) : ℝ) ≤
        ((scores.countP fun s => decide (y < s)) : ℝ) := by
      exact_mod_cast countP_gt_add_eq_le scores hlt
    have h1 : (0 : ℝ) ≤ ((scores.countP fun s => decide (s = x)) : ℝ) :=
      Nat.cast_nonneg _
    have h2 : (0 : ℝ) ≤ ((scores.countP fun s => decide (s = y)) : ℝ) :=
      Nat.cast_nonneg _
    linarith

lemma calcular_ok_eq {rows : List PlayerRow} {out : List ClutchRow}
    (hok : calcular_clutch_score rows = .ok out) : out = scoreRows rows := by
  unfold calcular_clutch_score at hok
  by_cases h2 : rows.isEmpty = true
  · rw [if_pos h2] at hok; cases hok
  · rw [if_neg h2] at hok
    injection hok with h
    exact h.symm

lemma mean_single (v : ℝ) : mean [v] = v := by
  unfold mean
  simp

lemma popVar_single (v : ℝ) : popVar [v] = 0 := by
  unfold popVar
  rw [mean_single]
  simp

lemma zscore_single (v : ℝ) : zscore [v] v = 0 := by
  unfold zscore
  rw [mean_single]
  simp

lemma mean_pair (v : ℝ) : mean [v, v] = v := by
  unfold mean
  simp

lemma popVar_pair (v : ℝ) : popVar [v, v] = 0 := by
  unfold popVar
  rw [mean_pair]
  simp

lemma zscore_pair (v : ℝ) : zscore [v, v] v = 0 := by
  unfold zscore
  rw [mean_pair]
  simp

lemma clutchScore_single (r : PlayerRow) : clutchScore [r] r = 0 := by
  unfold clutchScore colPTS colFG_PCT colFT_PCT colAST colFG3_PCT colTOV
  simp [zscore_single]

lemma clutchScore_pair (r : PlayerRow) : clutchScore [r, r] r = 0 := by
  unfold clutchScore colPTS colFG_PCT colFT_PCT colAST colFG3_PCT colTOV
  simp [zscore_pair]

lemma rankDesc_single_zero : rankDesc [(0 : ℝ)] 0 = 1 := by
  unfold rankDesc
  norm_num

lemma rankDesc_pair_zero : rankDesc [(0 : ℝ), 0] 0 = 3 / 2 := by
  unfold rankDesc
  norm_num

lemma scoreRows_single (r : PlayerRow) :
    scoreRows [r] =
      [{ PLAYER_NAME := r.PLAYER_NAME, TEAM_ABBREVIATION := r.TEAM_ABBREVIATION
         CLUTCH_SCORE := 0, CLUTCH_RANK := 1 }] := by
  unfold scoreRows withScores
  simp [clutchScore_single, rankDesc_single_zero, List.insertionSort]

lemma scoreRows_pair_same (r : PlayerRow) :
    scoreRows [r, r] =
      [{ PLAYER_NAME := r.PLAYER_NAME, TEAM_ABBREVIATION := r.TEAM_ABBREVIATION
         CLUTCH_SCORE := 0, CLUTCH_RANK := 3 / 2 },
       { PLAYER_NAME := r.PLAYER_NAME, TEAM_ABBREVIATION := r.TEAM_ABBREVIATION
         CLUTCH_SCORE := 0, CLUTCH_RANK := 3 / 2 }] := by
  unfold scoreRows withScores
  simp [clutchScore_pair, rankDesc_pair_zero, List.insertionSort,
    List.orderedInsert, scoreGE]

/-! ### Claim theorems -/

/-- C1: for every non-empty input table of complete records, the clutch
score the engine computes for each record equals the spec's weighted sum
`0.35*z_pts + 0.25*z_fg_pct + 0.15*z_ft_pct + 0.15*z_ast + 0.10*z_fg3_pct
- 0.25*z_tov` of the six standardized columns, where each standardized value
is `(value - column mean) / column standard deviation`. -/
theorem clutch_score_matches_spec_formula (rows : List PlayerRow)
    (_hne : rows ≠ []) (_hc : ∀ x ∈ rows, hasMissing x = false)
    (r : PlayerRow) (hr : r ∈ rows) :
    clutchScore rows r = score_spec rows r := by
  have h1 : cell r.PTS ∈ colPTS rows := by
    unfold colPTS; exact List.mem_map_of_mem (fun q => cell q.PTS) hr
  have h2 : cell r.FG_PCT ∈ colFG_PCT rows := by
    unfold colFG_PCT; exact List.mem_map_of_mem (fun q => cell q.FG_PCT) hr
  have h3 : cell r.FT_PCT ∈ colFT_PCT rows := by
    unfold colFT_PCT; exact List.mem_map_of_mem (fun q => cell q.FT_PCT) hr
  have h4 : cell r.AST ∈ colAST rows := by
    unfold colAST; exact List.mem_map_of_mem (fun q => cell q.AST) hr
  have h5 : cell r.FG3_PCT ∈ colFG3_PCT rows := by
    unfold colFG3_PCT; exact List.mem_map_of_mem (fun q => cell q.FG3_PCT) hr
  have h6 : cell r.TOV ∈ colTOV rows := by
    unfold colTOV; exact List.mem_map_of_mem (fun q => cell q.TOV) hr
  unfold clutchScore score_spec
  rw [zscore_eq_z_spec h1, zscore_eq_z_spec h2, zscore_eq_z_spec h3,
    zscore_eq_z_spec h4, zscore_eq_z_spec h5, zscore_eq_z_spec h6]
  ring

/-- Witness for C1 at the concrete two-row table `[rowA, rowB]`. -/
theorem clutch_score_matches_spec_formula_witness :
    clutchScore [rowA, rowB] rowA = score_spec [rowA, rowB] rowA :=
  clutch_score_matches_spec_formula [rowA, rowB] (by simp)
    (by intro x hx; fin_cases hx <;> rfl) rowA (by simp)

/-- C3: if a stat column has zero (population) standard deviation, the
standardized value is `0` for every record in that column, the divisor
`scale` is never zero, and (for the `FG3_PCT` column as the representative
instance) the column contributes exactly `0` to every record's clutch
score. -/
theorem zero_variance_column_contributes_zero :
    (∀ (xs : List ℝ), ∀ x ∈ xs, popVar xs = 0 → zscore xs x = 0) ∧
    (∀ xs : List ℝ, scale xs ≠ 0) ∧
    (∀ (rows : List PlayerRow), ∀ r ∈ rows, popVar (colFG3_PCT rows) = 0 →
      clutchScore rows r =
        0.35 * zscore (colPTS rows) (cell r.PTS)
          + 0.25 * zscore (colFG_PCT rows) (cell r.FG_PCT)
          + 0.15 * zscore (colFT_PCT rows) (cell r.FT_PCT)
          + 0.15 * zscore (colAST rows) (cell r.AST)
          + (-0.25) * zscore (colTOV rows) (cell r.TOV)) := by
  refine ⟨fun xs x hx h => zscore_zero_of_popVar_zero hx h, scale_ne_zero, ?_⟩
  intro rows r hr h
  have hm : cell r.FG3_PCT ∈ colFG3_PCT rows := by
    unfold colFG3_PCT; exact List.mem_map_of_mem (fun q => cell q.FG3_PCT) hr
  unfold clutchScore
  rw [zscore_zero_of_popVar_zero hm h]
  ring

/-- Witness for C3: a constant column `[2, 2]`, and the concrete pair table
`[rowA, rowA]` whose `FG3_PCT` column is constant. -/
theorem zero_variance_column_contributes_zero_witness :
    zscore [(2 : ℝ), 2] 2 = 0 ∧ scale [(2 : ℝ), 2] ≠ 0 ∧
    clutchScore [rowA, rowA] rowA =
      0.35 * zscore (colPTS [rowA, rowA]) (cell rowA.PTS)
        + 0.25 * zscore (colFG_PCT [rowA, rowA]) (cell rowA.FG_PCT)
        + 0.15 * zscore (colFT_PCT [rowA, rowA]) (cell rowA.FT_PCT)
        + 0.15 * zscore (colAST [rowA, rowA]) (cell rowA.AST)
        + (-0.25) * zscore (colTOV [rowA, rowA]) (cell rowA.TOV) :=
  ⟨zero_variance_column_contributes_zero.1 [2, 2] 2 (by simp) (popVar_pair 2),
   zero_variance_column_contributes_zero.2.1 [2, 2],
   zero_variance_column_contributes_zero.2.2 [rowA, rowA] rowA (by simp)
     (by have := popVar_pair (0.35 : ℝ)
         simpa [colFG3_PCT, rowA, cell] using this)⟩

/-- C5: the empty input fails with the empty-input error and yields no
output. -/
theorem empty_input_fails :
    calcular_clutch_score [] = .error .emptyInput := rfl

/-- C6 (code bug): the engine does not fail on an input containing a record
with a missing stat value — `StandardScaler` accepts NaN, so the call
succeeds, scoring the complete rows and carrying the incomplete row through
with NaN score and rank — contrary to the spec's required `MissingFieldError`
and its all-or-nothing rule. -/
theorem missing_value_input_does_not_fail :
    hasMissing rowMissing = true ∧
    calcular_clutch_score [rowA, rowMissing] =
      .ok (scoreRows [rowA, rowMissing]) :=
  ⟨rfl, rfl⟩

/-- C8: the engine is a pure, deterministic function of its input: threading
the dataframe through two consecutive calls leaves it unchanged, and both
calls return the same result. -/
theorem engine_pure_deterministic (df : List PlayerRow) :
    (calcular_clutch_score_twice df).1 = df ∧
    (calcular_clutch_score_twice df).2.1 = (calcular_clutch_score_twice df).2.2 :=
  ⟨rfl, rfl⟩

/-- C9: a single complete record succeeds, scores exactly `0` (every column
has zero variance) and is ranked `1`. -/
theorem single_record_scores_zero_rank_one (r : PlayerRow)
    (_hc : hasMissing r = false) :
    calcular_clutch_score [r] =
      .ok [{ PLAYER_NAME := r.PLAYER_NAME
             TEAM_ABBREVIATION := r.TEAM_ABBREVIATION
             CLUTCH_SCORE := 0, CLUTCH_RANK := 1 }] := by
  unfold calcular_clutch_score
  rw [if_neg (by simp), scoreRows_single]

/-- Witness for C9 at the concrete record `rowA`. -/
theorem single_record_scores_zero_rank_one_witness :
    hasMissing rowA = false ∧
    calcular_clutch_score [rowA] =
      .ok [{ PLAYER_NAME := "A", TEAM_ABBREVIATION := "AAA"
             CLUTCH_SCORE := 0, CLUTCH_RANK := 1 }] :=
  ⟨rfl, single_record_scores_zero_rank_one rowA rfl⟩

/-- C2 counterexample: on the two-identical-record input `[rowA, rowA]` the
engine succeeds, both scores are `0`, and both ranks are `1.5` — not the
`(count of strictly greater) + 1 = 1` (nor the integer) that standard
competition ranking requires. -/
theorem clutch_rank_not_competition_counterexample :
    calcular_clutch_score [rowA, rowA] = .ok (scoreRows [rowA, rowA]) ∧
    ((scoreRows [rowA, rowA]).map fun o => o.CLUTCH_SCORE) = [0, 0] ∧
    ((scoreRows [rowA, rowA]).map fun o => o.CLUTCH_RANK) = [3 / 2, 3 / 2] ∧
    (((scoreRows [rowA, rowA]).countP
        fun p => decide ((0 : ℝ) < p.CLUTCH_SCORE)) : ℝ) + 1 ≠ 3 / 2 := by
  refine ⟨rfl, ?_, ?_, ?_⟩
  · rw [scoreRows_pair_same rowA]; simp
  · rw [scoreRows_pair_same rowA]; simp
  · rw [scoreRows_pair_same rowA]
    norm_num [List.countP_cons]

/-- C2 (amended): ranks follow pandas' default average ranking: each
record's rank equals (count of records with strictly greater score) +
((count of records with equal score) + 1) / 2; every rank is a positive
number at least 1 (integral only when the tie group is odd-sized), and
records with equal scores receive the same rank. -/
theorem clutch_rank_average_ranking (rows : List PlayerRow)
    (out : List ClutchRow) (o : ClutchRow)
    (hok : calcular_clutch_score rows = .ok out) (ho : o ∈ out) :
    o.CLUTCH_RANK =
      ((out.countP fun p => decide (o.CLUTCH_SCORE < p.CLUTCH_SCORE)) : ℝ) +
        (((out.countP fun p => decide (p.CLUTCH_SCORE = o.CLUTCH_SCORE)) : ℝ)
          + 1) / 2 ∧
    1 ≤ o.CLUTCH_RANK ∧
    ∀ p ∈ out, p.CLUTCH_SCORE = o.CLUTCH_SCORE →
      p.CLUTCH_RANK = o.CLUTCH_RANK := by
  obtain rfl := calcular_ok_eq hok
  obtain ⟨hrank, hmem⟩ := rank_eq_rankDesc ho
  refine ⟨?_, ?_, ?_⟩
  · rw [hrank]
    unfold rankDesc
    rw [countP_scoreRows rows fun s => decide (o.CLUTCH_SCORE < s),
      countP_scoreRows rows fun s => decide (s = o.CLUTCH_SCORE)]
  · rw [hrank]
    unfold rankDesc
    have he : 0 < (rows.map (clutchScore rows)).countP
        fun y => decide (y = o.CLUTCH_SCORE) := by
      rw [List.countP_pos_iff]
      exact ⟨o.CLUTCH_SCORE, hmem, by simp⟩
    have he1 : (1 : ℝ) ≤ (((rows.map (clutchScore rows)).countP
        fun y => decide (y = o.CLUTCH_SCORE) : ℕ) : ℝ) := by
      exact_mod_cast he
    have hg : (0 : ℝ) ≤ (((rows.map (clutchScore rows)).countP
        fun y => decide (o.CLUTCH_SCORE < y) : ℕ) : ℝ) := Nat.cast_nonneg _
    linarith
  · intro p hp hps
    obtain ⟨hrankp, _⟩ := rank_eq_rankDesc hp
    rw [hrankp, hrank, hps]

/-- Witness for the amended C2 at the input `[rowA, rowA]` and its first
output row. -/
theorem clutch_rank_average_ranking_witness :
    ({ PLAYER_NAME := "A", TEAM_ABBREVIATION := "AAA"
       CLUTCH_SCORE := 0, CLUTCH_RANK := 3 / 2 } : ClutchRow).CLUTCH_RANK =
      (((scoreRows [rowA, rowA]).countP fun p =>
          decide (({ PLAYER_NAME := "A", TEAM_ABBREVIATION := "AAA"
                     CLUTCH_SCORE := 0, CLUTCH_RANK := 3 / 2 } :
            ClutchRow).CLUTCH_SCORE < p.CLUTCH_SCORE)) : ℝ) +
        ((((scoreRows [rowA, rowA]).countP fun p =>
            decide (p.CLUTCH_SCORE =
              ({ PLAYER_NAME := "A", TEAM_ABBREVIATION := "AAA"
                 CLUTCH_SCORE := 0, CLUTCH_RANK := 3 / 2 } :
                ClutchRow).CLUTCH_SCORE)) : ℝ) + 1) / 2 :=
  (clutch_rank_average_ranking [rowA, rowA] (scoreRows [rowA, rowA])
    { PLAYER_NAME := "A", TEAM_ABBREVIATION := "AAA"
      CLUTCH_SCORE := 0, CLUTCH_RANK := 3 / 2 } rfl
    (by rw [scoreRows_pair_same rowA]; simp [rowA])).1

/-- C4: the returned sequence is sorted descending by `CLUTCH_SCORE`, and
for every adjacent pair the ranks are consistent with that order (the
earlier row's rank is at most the later row's). -/
theorem output_sorted_descending (rows : List PlayerRow)
    (out : List ClutchRow) (hok : calcular_clutch_score rows = .ok out) :
    out.Chain' (fun a b => b.CLUTCH_SCORE ≤ a.CLUTCH_SCORE ∧
      a.CLUTCH_RANK ≤ b.CLUTCH_RANK) := by
  obtain rfl := calcular_ok_eq hok
  have hp : (scoreRows rows).Pairwise (fun a b =>
      b.CLUTCH_SCORE ≤ a.CLUTCH_SCORE ∧ a.CLUTCH_RANK ≤ b.CLUTCH_RANK) := by
    refine (scoreRows_sorted rows).imp_of_mem ?_
    intro a b ha hb hab
    refine ⟨hab, ?_⟩
    obtain ⟨ha1, _⟩ := rank_eq_rankDesc ha
    obtain ⟨hb1, _⟩ := rank_eq_rankDesc hb
    rw [ha1, hb1]
    exact rankDesc_anti hab
  exact hp.chain'

/-- Witness for C4 at the concrete input `[rowA, rowA]`. -/
theorem output_sorted_descending_witness :
    calcular_clutch_score [rowA, rowA] = .ok (scoreRows [rowA, rowA]) ∧
    (scoreRows [rowA, rowA]).Chain' (fun a b =>
      b.CLUTCH_SCORE ≤ a.CLUTCH_SCORE ∧ a.CLUTCH_RANK ≤ b.CLUTCH_RANK) :=
  ⟨rfl, output_sorted_descending [rowA, rowA] (scoreRows [rowA, rowA]) rfl⟩

/-- C7: on a non-empty all-complete input the engine succeeds with exactly
one output row per input row: same length, and the multiset of
`(name, team)` pairs of the output is exactly that of the input. -/
theorem one_result_per_record (rows : List PlayerRow) (hne : rows ≠ [])
    (_hc : ∀ r ∈ rows, hasMissing r = false) :
    calcular_clutch_score rows = .ok (scoreRows rows) ∧
    (scoreRows rows).length = rows.length ∧
    ((scoreRows rows).map fun o => (o.PLAYER_NAME, o.TEAM_ABBREVIATION)).Perm
      (rows.map fun r => (r.PLAYER_NAME, r.TEAM_ABBREVIATION)) := by
  refine ⟨?_, length_scoreRows rows, ?_⟩
  · unfold calcular_clutch_score
    rw [if_neg (by simp [hne])]
  · have h := (scoreRows_perm rows).map
      fun o => (o.PLAYER_NAME, o.TEAM_ABBREVIATION)
    have h2 : ((withScores rows).map
        fun o => (o.PLAYER_NAME, o.TEAM_ABBREVIATION)) =
        rows.map fun r => (r.PLAYER_NAME, r.TEAM_ABBREVIATION) := by
      unfold withScores
      rw [List.map_map]
      rfl
    rwa [h2] at h

/-- Witness for C7 at the concrete input `[rowA, rowB]`. -/
theorem one_result_per_record_witness :
    calcular_clutch_score [rowA, rowB] = .ok (scoreRows [rowA, rowB]) ∧
    (scoreRows [rowA, rowB]).length = [rowA, rowB].length ∧
    ((scoreRows [rowA, rowB]).map
        fun o => (o.PLAYER_NAME, o.TEAM_ABBREVIATION)).Perm
      ([rowA, rowB].map fun r => (r.PLAYER_NAME, r.TEAM_ABBREVIATION)) :=
  one_result_per_record [rowA, rowB] (by simp)
    (by intro x hx; fin_cases hx <;> rfl)

/-- C10: `obtener_datos_jugadores` returns the empty collection on a fetch
failure; and every returned record survived `dropna()` (none of the eight
selected cells is missing), has its team code in the requested set, and —
read as a scoring-engine row — satisfies the engine's no-missing-values
precondition. -/
theorem obtener_datos_jugadores_filters :
    (∀ (e : String) (abreviaturas : List String),
      obtener_datos_jugadores (.error e) abreviaturas = []) ∧
    (∀ (fetched : Except String (List StatsRow)) (abreviaturas : List String)
      (r : StatsRow), r ∈ obtener_datos_jugadores fetched abreviaturas →
        statsComplete r = true ∧ teamIn r abreviaturas = true ∧
        hasMissing (toPlayerRow r) = false) := by
  constructor
  · intro e abreviaturas; rfl
  · intro fetched abreviaturas r hr
    cases fetched with
    | error e => simp [obtener_datos_jugadores] at hr
    | ok stats =>
      unfold obtener_datos_jugadores at hr
      have h2 := List.mem_filter.mp hr
      have h1 := List.mem_filter.mp h2.1
      refine ⟨h1.2, h2.2, ?_⟩
      have hcm := h1.2
      unfold statsComplete at hcm
      simp only [Bool.and_eq_true] at hcm
      obtain ⟨⟨⟨⟨⟨⟨⟨_, _⟩, hfg⟩, hfg3⟩, hft⟩, hast⟩, htov⟩, hpts⟩ := hcm
      unfold hasMissing toPlayerRow
      simp [hfg, hfg3, hft, hast, htov, hpts]

/-- Witness for C10: a failed fetch returns `[]`, and a concrete complete
row fetched for team `LAL` passes both filters. -/
theorem obtener_datos_jugadores_filters_witness :
    obtener_datos_jugadores (.error "network down") ["LAL"] = [] ∧
    (statsComplete sRowA = true ∧ teamIn sRowA ["LAL"] = true ∧
      hasMissing (toPlayerRow sRowA) = false) :=
  ⟨obtener_datos_jugadores_filters.1 "network down" ["LAL"],
   obtener_datos_jugadores_filters.2 (.ok [sRowA]) ["LAL"] sRowA
     (List.mem_filter.mpr ⟨List.mem_filter.mpr ⟨by simp, rfl⟩, rfl⟩)⟩
